import Mathlib

/-!
Shallow embedding of `src/gen_story.py` (the `StoryGenerator` orchestration class):
prompt-template selection (`set_context`, `set_image_context`), instruction rendering
(`story_instructions`) and generation (`generate_response`).  The two hosted models and
the JSON output parser are external collaborators and enter as oracle parameters; the
mutable attribute state of a `StoryGenerator` instance is passed explicitly.
-/

namespace StoryTeller

/-- A piece of a Python format-string template: literal text or a named placeholder. -/
inductive Tok where
  | lit : String → Tok
  | var : String → Tok
deriving DecidableEq

/-- The literal text of a template, placeholders written back as brace-delimited names. -/
def templateText (ts : List Tok) : String :=
  String.join (ts.map fun t => match t with | .lit s => s | .var v => "\x7b" ++ v ++ "\x7d")

/-- The placeholder names of a template, in order of occurrence. -/
def templateVars (ts : List Tok) : List String :=
  ts.filterMap fun t => match t with | .lit _ => none | .var v => some v

/-- The two `KeyError` shapes LangChain prompt formatting can raise: an unbound
placeholder (Python's `KeyError` on the name, raised while substituting), and
`StrictFormatter.check_unused_args`, which raises `KeyError(extra)` on the supplied
keys the template does not use. -/
inductive FormatError where
  | missingKey : String → FormatError
  | unusedArgs : List String → FormatError
deriving DecidableEq

/-- The substitution pass of Python's `Formatter.vformat`: replaces each placeholder
by its binding, failing with the placeholder name when it is unbound. -/
def substTemplate (m : List (String × String)) : List Tok → Except FormatError String
  | [] => .ok ""
  | .lit s :: ts => (substTemplate m ts).map (fun r => s ++ r)
  | .var v :: ts =>
    match m.lookup v with
    | none => .error (.missingKey v)
    | some s => (substTemplate m ts).map (fun r => s ++ r)

/-- LangChain `PromptTemplate` f-string formatting (`StrictFormatter.format`):
`Formatter.vformat` substitutes the placeholders (raising `KeyError` on an unbound
one), then `check_unused_args` — overridden by `StrictFormatter` — raises
`KeyError(extra)` whenever some of the supplied keys (the invoke variables merged with
the partial variables) are not used by the template. -/
def renderTemplate (m : List (String × String)) (ts : List Tok) : Except FormatError String :=
  match substTemplate m ts with
  | .error e => .error e
  | .ok s =>
    match (m.map Prod.fst).filter (fun k => !(templateVars ts).contains k) with
    | [] => .ok s
    | extra => .error (.unusedArgs extra)

/-- A parsed JSON value, as produced by the JSON output parser library. -/
inductive JValue where
  | null : JValue
  | bool : Bool → JValue
  | num : Int → JValue
  | str : String → JValue
  | arr : List JValue → JValue
  | obj : List (String × JValue) → JValue

/-- The failures `generate_response` can surface, together with the error kinds named
by the spec.  `attributeError`, `keyError` and `outputParserException` correspond to
exceptions the source can actually raise (and re-raises unchanged through its
`try/except`); `preconditionError` and `malformedResponseError` are Modelled from the
spec: §7 of the spec names these kinds, but nothing in the source defines or raises
them. -/
inductive PyErr where
  | attributeError : String → PyErr
  | keyError : FormatError → PyErr
  | outputParserException : String → PyErr
  | preconditionError : String → PyErr
  | malformedResponseError : String → PyErr
deriving DecidableEq


/-- Literal piece 0 of the template (gen_story.py lines 44-53). -/
def ctx_lit0 : String :=
  "\n                Generate a short story based on the context provide in the STORY_CONTEXT section\n\n\n                INSTRUCTIONS:\n                    "

/-- Literal piece 1 of the template (gen_story.py lines 44-53). -/
def ctx_lit1 : String :=
  "\n\n                STORY_CONTEXT:\n                "

/-- Literal piece 2 of the template (gen_story.py lines 44-53). -/
def ctx_lit2 : String :=
  "\n            "

/-- The context-mode prompt template assigned to `self.prompt_template` in the
`elif context` branch of `set_context` (gen_story.py lines 44-53), split at its two
placeholders. -/
def context_prompt_template : List Tok :=
  [.lit ctx_lit0, .var "instructions_placeholder", .lit ctx_lit1, .var "context_placeholder", .lit ctx_lit2]

/-- Literal piece 0 of the template (gen_story.py line 58). -/
def topic_default_lit0 : String :=
  "Generate a story on "

/-- Literal piece 1 of the template (gen_story.py line 58). -/
def topic_default_lit1 : String :=
  " \nINSTRUCTIONS: \n "

/-- The default topic-mode prompt template assigned in the `else` branch of
`set_context` (gen_story.py line 58), split at its two placeholders. -/
def default_topic_template : List Tok :=
  [.lit topic_default_lit0, .var "TOPIC", .lit topic_default_lit1, .var "instructions_placeholder"]

/-- Literal piece 0 of the template (gen_story.py lines 137-146). -/
def img_lit0 : String :=
  "\n            Generate a short story based on the context provide in the STORY_CONTEXT section\n\n\n            INSTRUCTIONS:\n                "

/-- Literal piece 1 of the template (gen_story.py lines 137-146). -/
def img_lit1 : String :=
  "\n\n            STORY_CONTEXT:\n            "

/-- Literal piece 2 of the template (gen_story.py lines 137-146). -/
def img_lit2 : String :=
  "\n        "

/-- The context-shaped prompt template assigned in `set_image_context`
(gen_story.py lines 137-146).  Its literal text differs from the one installed by
`set_context` (12-space rather than 16-space indentation of the same lines), though the
placeholder structure is the same. -/
def image_context_template : List Tok :=
  [.lit img_lit0, .var "instructions_placeholder", .lit img_lit1, .var "context_placeholder", .lit img_lit2]

/-- The fixed image-analysis prompt built in `set_image_context`
(gen_story.py lines 66-133) and sent to the image-to-text model together with the image. -/
def image_description_prompt : String :=
  "\n            **Objective:** Generate a comprehensive and detailed description of the provided image, focusing on aspects that will be useful for subsequent story generation.\n\n            **Instructions:**\n\n            1.  **Image Type & Overall Impression:**\n                *   Begin by identifying the image type (e.g., photograph, painting, digital illustration, infographic, chart, etc.).\n                *   Provide a brief summary of the overall impression or mood conveyed by the image. Is it whimsical, serious, chaotic, peaceful, etc.?\n\n            2.  **Key Elements and Characters:**\n                *   **Identify and Describe:**  Meticulously list and describe all significant elements, objects, and characters present in the image.\n                *   **Character Details:** If characters are present, describe their:\n                    *   Appearance (age, clothing, facial features, posture, etc.)\n                    *   Possible emotions or expressions.\n                    *   Interactions with other elements or characters, if any.\n                *   **Object Details:** For objects, detail their:\n                    *   Shape, size, material, and any distinctive features.\n                    *   Position and arrangement within the image.\n            \n            3. **Visual Style and Aesthetics:**\n                *  **Style:** Describe the overall artistic style of the image (e.g., realistic, abstract, cartoonish, impressionistic, etc.).\n                * **Color Palette:**  Analyze and specify the dominant colors and color relationships, and describe the overall color scheme. How do they contribute to the image\x27s atmosphere?\n                * **Composition:** Comment on how elements are arranged within the image.  Is there a focal point? What are the effects of leading lines, perspectives, and symmetry?\n                * **Lighting:** Describe the quality of light in the image (e.g. bright, dim, natural, artificial). How is light used to highlight the characters or create shadows and mood?\n                \n            4.  **Data and Information (if applicable):**\n                *   **Statistical Data:** If the image contains numerical data, statistics, or values, explicitly state the numbers and their meaning. Present this information in a clear and concise manner using bullet points.\n                *   **Charts, Graphs, Infographics, Tables:** If the image contains charts, graphs, or tables:\n                    *   Describe the type of visualization (e.g., bar chart, pie chart, line graph).\n                    *   Identify axes and labels.\n                    *   Summarize the key data points and relationships displayed within the visualization.\n                *   **Text and Labels:** If there is any text or labels, transcribe and include them in your description as pointers. Explain the purpose of the text.\n\n            5.  **Contextual Relevance:**\n                *   **Interpreting the Scene:** Consider if the elements seem related. Is there a sense of space or location?\n                *   **Potential Story Hooks:** Briefly note any potential narrative elements that suggest a story. (e.g., a character looking determined, an unusual object, a mysterious atmosphere)\n\n            6.  **Restrictions and Limitations:**\n                *   **Image Based:**  Only describe aspects directly visible or inferred from the image.\n                *   **Avoid Assumptions:** Do not add information or make assumptions that are not supported by the image content.\n\n            **Example output structure**\n            \x60\x60\x60\n            Type of image: Photograph\n            Mood: Serene, nostalgic\n            Key Elements:\n                - An old wooden rowboat resting on a calm lake.\n                - A few tall pine trees surrounding the lake\n                - A soft, hazy sunset.\n\n            Characters:\n                - No people are present.\n                - A family of ducks swimming near the boat.\n\n            Style: Realistic\n            Color Palette:\n                - Dominant colors are muted shades of blue, grey, green, and orange.\n                - The color palette creates a peaceful and somewhat melancholic mood.\n            Composition:\n                - The composition is horizontally oriented, with the rowboat as a point of interest in the left side, and a lot of empty space on the right\n\n            Data:\n            - No data is present\n            \n            Contextual relevance:\n                - Suggests a feeling of peace and tranquility. It could be a scene from the past.\n\n        "

/-- Literal segment 0 of the `self.instrucitons` f-string in `story_instructions`
(gen_story.py lines 190-269). -/
def instructions_lit0 : String :=
  "\n            You are an expert storyteller and visual content creator. Your task is to generate a compelling and visually engaging story based on provided context. The output should be structured for easy integration into a web application.\n\n            **STORY GENERATION:**\n\n            1.  **Story Length:** The generated story must not exceed a "

/-- Literal segment 1 of the `self.instrucitons` f-string in `story_instructions`
(gen_story.py lines 190-269). -/
def instructions_lit1 : String :=
  "  word count.\n            2.  **Story Segmentation:** Divide the story into a "

/-- Literal segment 2 of the `self.instrucitons` f-string in `story_instructions`
(gen_story.py lines 190-269). -/
def instructions_lit2 : String :=
  " number of parts. Each part should flow logically to create a cohesive narrative. \n            3.  **Story Theme:** The story must adhere to a given theme, which will be represented by "

/-- Literal segment 3 of the `self.instrucitons` f-string in `story_instructions`
(gen_story.py lines 190-269). -/
def instructions_lit3 : String :=
  ". Ensure the plot, characters, and overall tone align with this theme.\n            4.  **Inspiration Source:** Draw inspiration from the provided source, represented by "

/-- Literal segment 4 of the `self.instrucitons` f-string in `story_instructions`
(gen_story.py lines 190-269). -/
def instructions_lit4 : String :=
  ". This could be a specific event, a historical figure, a literary work, or any other relevant input. Let the inspiration influence the story\x27s narrative, but don\x27t plagiarize directly.\n            5.  **Title:** Create a concise and engaging title for the story.\n            6.  **Introduction:** Craft a brief introduction (50-60 words) that sets the scene, introduces the main idea, and piques the reader\x27s interest.\n            7.  \"\"Theme:** Create a small description about the theme of the story, this should contain small context, what colors, style will suit to show this story over the web, this will be used to ask a theme generator to generator colors, font-colors, styles for the web page where story will be posted\n\n            **IMAGE PROMPT GENERATION (For Each Story Part):**\n\n            1.  **Purpose:** Generate a distinct, concise, and clear image prompt for each story part. These prompts will be used by a separate image generation model.\n            2.  **Context Alignment:** Ensure each image prompt aligns directly with the content of its respective story part.\n            3.  **Visual Style:** The generated images should:\n                *   Have a light and predominantly white background to accommodate text overlay.\n                *   Image and image should match the inspiration from "

/-- Literal segment 5 of the `self.instrucitons` f-string in `story_instructions`
(gen_story.py lines 190-269). -/
def instructions_lit5 : String :=
  " and theme from "

/-- Literal segment 6 of the `self.instrucitons` f-string in `story_instructions`
(gen_story.py lines 190-269). -/
def instructions_lit6 : String :=
  "\n                *   Image prompt should clearly mention the color palletes to be used to generate the image, so that following image should have same contrast, colors and backgrounds\n            4.  **Prompt Clarity:** The image prompts must be concise, focusing on key visual elements, and avoid unnecessary detail.\n            5.  **Prompt Safety:** Prompt should follow the responsible AI guidelines and Do not include anything related to child, sexual orientation, realted to any race, image prompt should be \n                appropriate to the general audience without hurting any sentiments\n            6.  **Characters:** If prompt includes to generate any character, person, imaginary figure, then add details of those so that other similar\n                prompts of the story parts images should have same characters/persons/imaginary figures in the images.\n\n            **HTML STYLE GUIDE:**\n\n            1.  **Purpose:** Define a cohesive and aesthetically pleasing style guide for the HTML formatting of the story. This will include the background color, font color, and font family.\n            2.  **Context Matching:** The style guide must complement the story theme, image styles, and be visually appealing to the target audience. Aim for a smooth, comfortable reading experience that enhances engagement.\n            3.  **Specific Attributes:** The style guide will include:\n                *   \x60background-color\x60: a background color suitable for the story\x27s theme and image aesthetic.\n                *   \x60font-color\x60: a font color that provides sufficient contrast against the background, ensuring easy readability.\n                *   \x60font-family\x60:  a readable font family that fits the overall tone and style of the story and image theme.\n\n            **OUTPUT FORMAT (JSON):**\n\n            1.  **Structure:** The output MUST be in JSON format.\n            2.  **Top-Level Keys:** The JSON object must contain the following top-level keys: \x60style\x60, \x60title\x60, \x60introduction\x60, and \x60story\x60.\n                *   \x60style\x60: should contain the HTML style parameters which will be passed to HTML component\n                    * \x60background-color\x60: color to be used as background color for html\n                    * \x60font-color\x60: color to be used as font color for the story text\n                    * \x60font-family\x60: which font will be best suited for the story\n                *   \x60title\x60: The generated title of the story.\n                *   \x60introduction\x60: The short introduction to the story.\n                *   \x60theme\x60: The style guide theme for the story to be used for css styling\n                *   \x60story\x60:  A nested JSON object that contains each story part.\n            3.  **Story Parts:** The \x60story\x60 object will be a nested structure where each key represents a story part number (e.g., \x60part_1\x60, \x60part_2\x60, etc.).\n            4.  **Part Contents:** Each story part (e.g., \x60part_1\x60, \x60part_2\x60, etc.) will be a nested JSON object with the following keys:\n                *   \x60story\x60: The generated content of that particular story part.\n                *   \x60image_prompt\x60: The image prompt for that specific story part.\n\n            **Example JSON structure:**\n\n            \x60\x60\x60json\n                \"style\": \n                    \"background-color\": \"#f0f8ff\",\n                    \"font-color\": \"#333\",\n                    \"font-family\": \"Arial, sans-serif\"\n                ,\n                \"title\": \"The Magical Treehouse Adventure\",\n                \"introduction\": \"Lily and Tom discover a hidden treehouse in their backyard, leading them on an amazing adventure through enchanted lands and whimsical creatures.\",\n                \"theme\": \"Story is of 2 friends about there adventures, styles which will suit for sharing this story will be vibrant, showing high contrast of colors, color pallete which will suit this story might be #A31D1D, #E5D0AC, #FEF9E1\"\n                \"story\": \n                    \"part_1\": \n                        \"story\": \"The sun peeked through the leaves as Lily and Tom stumbled upon a rickety ladder leading to a treehouse hidden among the branches.\",\n                        \"image_prompt\": \"A sunny, whimsical treehouse hidden in a lush forest with a ladder leading up to it. Light background, 1/3 of a corner should be free for the text.\"\n                    ,\n                    \"part_2\": \n                        \"story\": \"Inside, they found a sparkling map that promised a journey to the land of talking animals.\",\n                        \"image_prompt\": \"Inside the treehouse, a map glitters invitingly, surrounded by simple wooden furniture, light background, 1/3 corner free for text\"\n                    ,\n                    \"part_3\": \n                        \"story\": \"They met a friendly fox who gave them directions to the land of happy smiles\",\n                        \"image_prompt\": \"A smiling fox and two young children standing on a path surrounded by lush green grass, light background, 1/3 corner free for text\"\n                     \n            \x60\x60\x60\n                    \n        "

/-- The `self.instrucitons` f-string of `story_instructions` (gen_story.py lines
190-269): its literal segments joined with the interpolated values in source order
(`n_words`, `story_parts`, `story_theme`, `story_inspiration`, `story_inspiration`,
`story_theme`). -/
def instructionsOf (story_theme story_inspiration : String) (n_words story_parts : Nat) : String :=
  instructions_lit0 ++ toString n_words ++ instructions_lit1 ++ toString story_parts ++
    instructions_lit2 ++ story_theme ++ instructions_lit3 ++ story_inspiration ++
    instructions_lit4 ++ story_inspiration ++ instructions_lit5 ++ story_theme ++
    instructions_lit6

/-- Modelled from the spec: first literal piece of the topic-mode template file. -/
def ptw_lit0 : String :=
  "Generate a story on the topic "

/-- Modelled from the spec: second literal piece of the topic-mode template file. -/
def ptw_lit1 : String :=
  "\nINSTRUCTIONS:\n"

/-- Modelled from the spec: the topic-mode template file `inputs/prompt_w_topic.txt`
read in `set_context` (gen_story.py lines 36-39) is part of the repository but not
under `src/`; §6 of the spec describes it as "an external text resource providing the
topic-mode template with two named placeholders (`TOPIC`, instruction placeholder)". -/
def prompt_w_topic_template : List Tok :=
  [.lit ptw_lit0, .var "TOPIC", .lit ptw_lit1, .var "instructions_placeholder"]

/-- The mutable attribute state of a `StoryGenerator` instance.  Attributes that come
into existence only through later method calls (`self.topic`, `self.context`,
`self.prompt_template`, ...) are wrapped in `Option`, `none` meaning the attribute does
not exist yet, so that reading it raises `AttributeError` as in Python; `img_calls` and
`llm_calls` count the invocations of the image-description and text-generation
services. -/
structure GenState where
  story_theme : String
  story_inspiration : String
  n_words : Nat
  story_parts : Nat
  instrucitons : String
  topic : Option (Option String) := none
  context : Option (Option String) := none
  image : Option String := none
  image_prompt : Option (String × String) := none
  prompt_template : Option (List Tok) := none
  input_variables : Option (List String) := none
  prompt : Option (List Tok × List String × String) := none
  response : Option JValue := none
  img_calls : Nat := 0
  llm_calls : Nat := 0

/-- `story_instructions` (gen_story.py lines 188-269): sets
`self.story_parts := self.n_words // 200` and renders `self.instrucitons` from the
configuration. -/
def story_instructions (st : GenState) : GenState :=
  let parts := st.n_words / 200
  { st with story_parts := parts,
            instrucitons := instructionsOf st.story_theme st.story_inspiration st.n_words parts }

/-- `StoryGenerator.__init__` (gen_story.py lines 20-28): stores the configuration and
immediately calls `story_instructions` (which overwrites the two derived fields, given
placeholder values here).  The genai model handles are opaque and not modelled.
Python defaults: theme "General", inspiration "General", 200 words. -/
def StoryGenerator_init (story_theme story_inspiration : String) (n_words : Nat) : GenState :=
  story_instructions
    { story_theme := story_theme, story_inspiration := story_inspiration,
      n_words := n_words, story_parts := 0, instrucitons := "" }

/-- Python truthiness of an optional string argument: absent (`None`) or empty means
falsy. -/
def truthy : Option String → Bool
  | none => false
  | some s => !(s == "")

/-- `set_context` (gen_story.py lines 31-59).  Mirrors the source exactly: lines 32-33
first store both arguments; a truthy `topic` then installs the template read from
`inputs/prompt_w_topic.txt`; otherwise a truthy `context` installs the inline
context-mode template; otherwise the inline default topic-mode template is installed.
Argument order is the Python one: `context` first, `topic` second. -/
def set_context (st : GenState) (context topic : Option String) : GenState :=
  let st1 := { st with topic := some topic, context := some context }
  if truthy topic then
    { st1 with topic := some topic,
               prompt_template := some prompt_w_topic_template,
               input_variables := some ["TOPIC", "instructions_placeholder"] }
  else if truthy context then
    { st1 with context := some context,
               prompt_template := some context_prompt_template,
               input_variables := some ["instructions_placeholder", "context_placeholder"] }
  else
    { st1 with prompt_template := some default_topic_template,
               input_variables := some ["TOPIC", "instructions_placeholder"] }

/-- `set_image_context` (gen_story.py lines 62-147).  The image payload is opaque and
modelled as a string; `imgService` stands for
`self.image_to_text_model.generate_content`, invoked exactly once here, with the fixed
analysis prompt and the image; its `.text` becomes `self.context`. -/
def set_image_context (st : GenState) (img : String) (imgService : String → String → String) : GenState :=
  let st1 := { st with image := some img, image_prompt := some (image_description_prompt, img) }
  let description := imgService image_description_prompt img
  { st1 with context := some (some description),
             img_calls := st1.img_calls + 1,
             prompt_template := some image_context_template,
             input_variables := some ["instructions_placeholder", "context_placeholder"] }

/-- Python `str()` of an optional attribute value, as applied by string formatting. -/
def pyStr : Option String → String
  | none => "None"
  | some s => s

/-- `chain = self.prompt | self.llm | parser; chain.invoke(...)` (gen_story.py lines
166-171 and 176-180): format the template with the merged partial and invoke
variables, hand the formatted prompt to the text-generation service, and run the JSON
output parser on the raw response.  A `KeyError` from formatting (including
`StrictFormatter`'s unused-args check) aborts the chain before the service is called;
it and the parser's exception propagate unchanged; the service call is counted once a
prompt reaches it. -/
def invoke_chain (st : GenState) (tmpl : List Tok) (m : List (String × String))
    (llm : String → String) (parse : String → Except String JValue) :
    GenState × Except PyErr JValue :=
  match renderTemplate m tmpl with
  | .error v => (st, .error (.keyError v))
  | .ok p =>
    match parse (llm p) with
    | .error e => ({ st with llm_calls := st.llm_calls + 1 }, .error (.outputParserException e))
    | .ok j => ({ st with llm_calls := st.llm_calls + 1, response := some j }, .ok j)

/-- `generate_response` (gen_story.py lines 149-185).  `format_instructions` is the
string returned by `parser.get_format_instructions()` (external library); it enters
the template only as the partial variable `format_instructions`, exactly as in line
163.  The `try/except` re-raises every exception unchanged, so failures simply
propagate.  Returns the instance state as mutated up to the point of success or
failure, with the result or the exception. -/
def generate_response (st : GenState) (llm : String → String)
    (parse : String → Except String JValue) (format_instructions : String) :
    GenState × Except PyErr JValue :=
  match st.prompt_template with
  | none => (st, .error (.attributeError "prompt_template"))
  | some tmpl =>
    match st.input_variables with
    | none => (st, .error (.attributeError "input_variables"))
    | some vars =>
      let st1 := { st with prompt := some (tmpl, vars, format_instructions) }
      if vars.contains "context_placeholder" then
        match st1.context with
        | none => (st1, .error (.attributeError "context"))
        | some ctx =>
          invoke_chain st1 tmpl
            [("format_instructions", format_instructions),
             ("instructions_placeholder", st1.instrucitons),
             ("context_placeholder", pyStr ctx)] llm parse
      else
        match st1.topic with
        | none => (st1, .error (.attributeError "topic"))
        | some topicVal =>
          let newTopic : String := match topicVal with | none => "Random" | some t => t
          let st2 := { st1 with topic := some (some newTopic) }
          invoke_chain st2 tmpl
            [("format_instructions", format_instructions),
             ("instructions_placeholder", st2.instrucitons),
             ("TOPIC", newTopic)] llm parse

/-- Pattern match at the head of a list (defined through `List.rec` so that kernel
evaluation of long scans stays iterative). -/
def headMatch : List Char → List Char → Bool :=
  List.rec (fun _ => true)
    (fun a _ ih s => match s with
      | [] => false
      | b :: bs => a == b && ih bs)

/-- Occurrence of `pat` anywhere in `s` (defined through `List.rec`, tail-call shaped). -/
def occursIn (pat : List Char) : List Char → Bool :=
  List.rec (headMatch pat []) (fun c cs ih => headMatch pat (c :: cs) || ih)

/-- Substring test on strings, built on `occursIn`. -/
def strContains (s pat : String) : Bool := occursIn pat.data s.data

/-- Field lookup in a parsed JSON object. -/
def jGet (j : JValue) (k : String) : Option JValue :=
  match j with
  | .obj fields => fields.lookup k
  | _ => none

/-- Whether an optional JSON field is a non-empty string. -/
def jNonEmptyStr : Option JValue → Bool
  | some (.str s) => !(s == "")
  | _ => false

/-- Modelled from the spec: one `part_N` record of `StoryResult.story` must carry
non-empty `story` and `image_prompt` strings (§3). -/
def specValidPart (story : JValue) (i : Nat) : Bool :=
  match jGet story ("part_" ++ toString i) with
  | some p => jNonEmptyStr (jGet p "story") && jNonEmptyStr (jGet p "image_prompt")
  | none => false

/-- Modelled from the spec: the `StoryResult` structural contract of §3/§4.3, stated
from the spec's words for comparison against the source behaviour (the source contains
no corresponding validation code): all top-level keys present, `style` with its three
sub-keys, and `story` with exactly `partCount` entries keyed `part_1..part_partCount`,
each a record with non-empty `story` and `image_prompt` strings. -/
def specStoryResultValid (partCount : Nat) (j : JValue) : Bool :=
  (jGet j "title").isSome && (jGet j "introduction").isSome && (jGet j "theme").isSome &&
  (match jGet j "style" with
   | some sty =>
     (jGet sty "background-color").isSome && (jGet sty "font-color").isSome &&
     (jGet sty "font-family").isSome
   | none => false) &&
  (match jGet j "story" with
   | some story =>
     (match story with | .obj fs => fs.length == partCount | _ => false) &&
     (List.range partCount).all (fun i => specValidPart story (i + 1))
   | none => false)

/-- Modelled from the spec: the machine-generated format directive produced by the
schema-to-instructions function of the JSON parser library
(`parser.get_format_instructions()`, §4.3 of the spec); its fixed leading sentence. -/
def format_directive : String :=
  "The output should be formatted as a JSON instance that conforms to the JSON schema below."

/-- A `StoryGenerator()` built with the Python default configuration
(`story_theme = "General"`, `story_inspiration = "General"`, `n_words = 200`). -/
def defaultGen : GenState := StoryGenerator_init "General" "General" 200

/-- The default instance after `set_context(context="A misty forest")`. -/
def ctxState : GenState := set_context defaultGen (some "A misty forest") none

/-- The default instance after `set_context()` with no arguments (topic mode, topic
unset). -/
def topicUnsetState : GenState := set_context defaultGen none none

/-- The default instance after `set_context(topic="Dragons")` followed by
`set_context(context="A misty forest")`. -/
def topicThenContextState : GenState :=
  set_context (set_context defaultGen none (some "Dragons")) (some "A misty forest") none

/-- The default instance after a single `set_context(context="A misty forest",
topic="Dragons")` call supplying both arguments. -/
def bothArgsState : GenState :=
  set_context defaultGen (some "A misty forest") (some "Dragons")

/-- A syntactically valid JSON object that does not follow the `StoryResult` shape. -/
def badStoryJson : JValue := .obj [("foo", .num 1)]

/-- The string `renderTemplate` produces from `context_prompt_template` for given
instruction and context values. -/
def contextModePrompt (instr ctxv : String) : String :=
  ctx_lit0 ++ (instr ++ (ctx_lit1 ++ (ctxv ++ (ctx_lit2 ++ ""))))

/-- The string `renderTemplate` produces from `default_topic_template` for given topic
and instruction values. -/
def topicDefaultPrompt (topicv instr : String) : String :=
  topic_default_lit0 ++ (topicv ++ (topic_default_lit1 ++ (instr ++ "")))

/-- The string `renderTemplate` produces from `image_context_template` for given
instruction and description values. -/
def imageModePrompt (instr descr : String) : String :=
  img_lit0 ++ (instr ++ (img_lit1 ++ (descr ++ (img_lit2 ++ ""))))

/-- The string `renderTemplate` produces from `prompt_w_topic_template` for given
topic and instruction values. -/
def topicFilePrompt (topicv instr : String) : String :=
  ptw_lit0 ++ (topicv ++ (ptw_lit1 ++ (instr ++ "")))

/-! ### Helper lemmas about the substring scanner -/

theorem headMatch_nil_pat (s : List Char) : headMatch [] s = true := rfl

theorem headMatch_cons_cons (a : Char) (as : List Char) (b : Char) (bs : List Char) :
    headMatch (a :: as) (b :: bs) = (a == b && headMatch as bs) := rfl

theorem occursIn_cons (p : List Char) (c : Char) (cs : List Char) :
    occursIn p (c :: cs) = (headMatch p (c :: cs) || occursIn p cs) := rfl

theorem headMatch_self_append (p ys : List Char) : headMatch p (p ++ ys) = true := by
  induction p with
  | nil => exact headMatch_nil_pat _
  | cons a as ih => simp [List.cons_append, headMatch_cons_cons, ih]

theorem occursIn_self_append (p ys : List Char) : occursIn p (p ++ ys) = true := by
  cases p with
  | nil =>
    cases ys with
    | nil => rfl
    | cons c cs => simp [occursIn_cons, headMatch_nil_pat]
  | cons a as =>
    have h := headMatch_self_append (a :: as) ys
    simp [List.cons_append, occursIn_cons] at h ⊢
    exact Or.inl (by simpa [List.cons_append] using h)

theorem occursIn_append_left (p xs ys : List Char) (h : occursIn p ys = true) :
    occursIn p (xs ++ ys) = true := by
  induction xs with
  | nil => simpa using h
  | cons x xs ih => simp [List.cons_append, occursIn_cons, ih]

theorem strContains_append_middle (a p b : String) :
    strContains (a ++ (p ++ b)) p = true := by
  unfold strContains
  rw [String.data_append, String.data_append]
  exact occursIn_append_left _ _ _ (occursIn_self_append _ _)

theorem instructionsOf_contains_parts (theme insp : String) (n parts : Nat) :
    strContains (instructionsOf theme insp n parts) (toString parts) = true := by
  unfold strContains instructionsOf
  simp only [String.data_append, List.append_assoc]
  exact occursIn_append_left _ _ _ (occursIn_append_left _ _ _
    (occursIn_append_left _ _ _ (occursIn_self_append _ _)))

theorem invoke_chain_preserves_fields (st : GenState) (tmpl : List Tok)
    (m : List (String × String)) (llm : String → String)
    (parse : String → Except String JValue) :
    (invoke_chain st tmpl m llm parse).1.topic = st.topic
    ∧ (invoke_chain st tmpl m llm parse).1.story_theme = st.story_theme
    ∧ (invoke_chain st tmpl m llm parse).1.story_inspiration = st.story_inspiration
    ∧ (invoke_chain st tmpl m llm parse).1.n_words = st.n_words
    ∧ (invoke_chain st tmpl m llm parse).1.instrucitons = st.instrucitons
    ∧ (invoke_chain st tmpl m llm parse).1.prompt_template = st.prompt_template := by
  unfold invoke_chain
  cases hr : renderTemplate m tmpl with
  | error v => exact ⟨rfl, rfl, rfl, rfl, rfl, rfl⟩
  | ok p =>
    dsimp only
    cases hp : parse (llm p) with
    | error e => exact ⟨rfl, rfl, rfl, rfl, rfl, rfl⟩
    | ok j => exact ⟨rfl, rfl, rfl, rfl, rfl, rfl⟩

/-! ### Claim theorems -/

set_option maxRecDepth 40000

/-- C2: for every configuration, `story_parts` computed at construction equals
`n_words / 200` (integer division), in particular `0` whenever `n_words < 200`, and
the rendered instruction block embeds this literal value (the part count is a
decimal-rendered substring of `self.instrucitons`). -/
theorem story_parts_is_div200_and_embedded (theme insp : String) (n : Nat) :
    (StoryGenerator_init theme insp n).story_parts = n / 200
    ∧ (n < 200 → (StoryGenerator_init theme insp n).story_parts = 0)
    ∧ strContains (StoryGenerator_init theme insp n).instrucitons (toString (n / 200)) = true :=
  ⟨rfl, fun h => by simp [StoryGenerator_init, story_instructions, Nat.div_eq_of_lt h],
    instructionsOf_contains_parts theme insp n (n / 200)⟩

/-- Witness for C2 at the concrete configuration `n_words = 150`. -/
theorem story_parts_is_div200_and_embedded_witness :
    150 < 200 ∧ (StoryGenerator_init "General" "General" 150).story_parts = 0 :=
  ⟨by decide, (story_parts_is_div200_and_embedded "General" "General" 150).2.1 (by decide)⟩

/-- C4 counterexample: `set_context` with an empty context string does not fail and
does not require non-empty context; it silently falls through to the `else` branch and
installs the default topic-shaped template, not the context-shaped one. -/
theorem empty_context_installs_default_topic_template :
    (set_context defaultGen (some "") none).prompt_template = some default_topic_template
    ∧ (set_context defaultGen (some "") none).prompt_template ≠ some context_prompt_template
    ∧ (set_context defaultGen (some "") none).input_variables
        = some ["TOPIC", "instructions_placeholder"]
    ∧ (set_context defaultGen (some "") none).context = some (some "") :=
  ⟨rfl, by decide, rfl, rfl⟩

/-- C4 amended: an empty context never raises; it selects the default topic-shaped
template, while a non-empty context installs the context-shaped template with the
instruction and context placeholders. -/
theorem set_context_empty_vs_nonempty (st : GenState) (c : String) (h : c ≠ "") :
    (set_context st (some "") none).prompt_template = some default_topic_template
    ∧ (set_context st (some c) none).prompt_template = some context_prompt_template
    ∧ (set_context st (some c) none).input_variables
        = some ["instructions_placeholder", "context_placeholder"]
    ∧ (set_context st (some c) none).context = some (some c) := by
  have hc : (c == "") = false := by
    simp [h]
  refine ⟨rfl, ?_, ?_, ?_⟩ <;> simp [set_context, truthy, hc]

/-- Witness for C4 at the concrete context "A misty forest". -/
theorem set_context_empty_vs_nonempty_witness :
    "A misty forest" ≠ ""
    ∧ (set_context defaultGen (some "A misty forest") none).prompt_template
        = some context_prompt_template :=
  ⟨by decide, (set_context_empty_vs_nonempty defaultGen "A misty forest" (by decide)).2.1⟩

/-- C5 amended: generation with no mode selected fails before any external call, but
with Python's `AttributeError` on the missing `prompt_template` attribute (there is no
dedicated precondition check); the state is unchanged and both service call counters
stay at zero. -/
theorem generate_without_mode_attribute_error (theme insp : String) (n : Nat)
    (llm : String → String) (parse : String → Except String JValue) (fi : String) :
    generate_response (StoryGenerator_init theme insp n) llm parse fi
      = (StoryGenerator_init theme insp n, .error (.attributeError "prompt_template"))
    ∧ (generate_response (StoryGenerator_init theme insp n) llm parse fi).1.llm_calls = 0
    ∧ (generate_response (StoryGenerator_init theme insp n) llm parse fi).1.img_calls = 0 :=
  ⟨rfl, rfl, rfl⟩

/-- C5 counterexample: at the concrete no-mode instance the failure is
`AttributeError("prompt_template")`, which is not the spec's
`PreconditionError("no input mode selected")`; the call counters are zero. -/
theorem generate_without_mode_not_precondition_error :
    (generate_response defaultGen (fun _ => "") (fun _ => .ok .null) "").2
      = .error (.attributeError "prompt_template")
    ∧ PyErr.attributeError "prompt_template" ≠ PyErr.preconditionError "no input mode selected"
    ∧ (generate_response defaultGen (fun _ => "") (fun _ => .ok .null) "").1.llm_calls = 0
    ∧ (generate_response defaultGen (fun _ => "") (fun _ => .ok .null) "").1.img_calls = 0 :=
  ⟨rfl, by decide, rfl, rfl⟩

/-- C1 counterexample: at a concrete context-mode instance `generate_response` returns
no result at all — prompt formatting raises `KeyError` on the unused
`format_instructions` partial before the text service or the parser can run — so no
validated `StoryResult` is ever produced, nothing is ever structurally checked, and
the failure is not a `MalformedResponseError` carrying a response. -/
theorem generate_fails_before_any_parsing :
    (generate_response ctxState (fun _ => "not json") (fun _ => .ok badStoryJson) "FMT").2
      = .error (.keyError (.unusedArgs ["format_instructions"]))
    ∧ (generate_response ctxState (fun _ => "not json")
        (fun _ => .ok badStoryJson) "FMT").1.llm_calls = 0
    ∧ PyErr.keyError (.unusedArgs ["format_instructions"])
        ≠ PyErr.malformedResponseError "not json"
    ∧ specStoryResultValid ctxState.story_parts badStoryJson = false :=
  ⟨rfl, rfl, by decide, rfl⟩

/-- C1 amended: on the source-defined context-mode template `generate_response` never
returns a `StoryResult` and never raises a `MalformedResponseError`: for every state,
service and parser, `StrictFormatter` raises `KeyError` on the unused
`format_instructions` partial variable before the Text Generation Service or the JSON
output parser is invoked, and the exception is re-raised unchanged; no structural
validation code exists. -/
theorem generate_response_fails_formatting (st : GenState) (iv : List String)
    (ctx : Option String) (llm : String → String)
    (parse : String → Except String JValue) (fi : String)
    (h1 : st.prompt_template = some context_prompt_template)
    (h2 : st.input_variables = some iv)
    (h3 : iv.contains "context_placeholder" = true) (h4 : st.context = some ctx) :
    (generate_response st llm parse fi).2
      = .error (.keyError (.unusedArgs ["format_instructions"]))
    ∧ (generate_response st llm parse fi).1.llm_calls = st.llm_calls
    ∧ (generate_response st llm parse fi).1.response = st.response := by
  obtain ⟨th, ins, nw, sp, instr, tp, cx, im, imp, pt, ivv, pr, resp, ic, lc⟩ := st
  simp only [GenState.prompt_template, GenState.input_variables, GenState.context] at h1 h2 h4
  subst h1; subst h2; subst h4
  simp only [generate_response, h3, if_true]
  exact ⟨rfl, rfl, rfl⟩

/-- Witness for C1's amended theorem at a concrete context-mode instance with a parser
that would return a non-`StoryResult` object if it were ever reached. -/
theorem generate_response_fails_formatting_witness :
    (["instructions_placeholder", "context_placeholder"].contains "context_placeholder" = true)
    ∧ (generate_response ctxState (fun _ => "not json") (fun _ => .ok badStoryJson) "FMT").2
        = .error (.keyError (.unusedArgs ["format_instructions"])) :=
  ⟨by decide, (generate_response_fails_formatting ctxState
    ["instructions_placeholder", "context_placeholder"] (some "A misty forest")
    (fun _ => "not json") (fun _ => .ok badStoryJson) "FMT" rfl rfl rfl rfl).1⟩

/-- C7 counterexample: the template installed by `set_image_context` is not the same
template `set_context` installs for context mode — the two source literals differ in
indentation (12 versus 16 leading spaces per line) — and the Image Description Service
call is never followed by a text-generation call at all: `generate_response` raises
`KeyError` on the unused `format_instructions` partial before the text service is
invoked, so no prompt carrying the description is ever sent. -/
theorem image_template_differs_and_no_text_call :
    (set_image_context defaultGen "IMG" (fun _ _ => "DESC")).prompt_template
      ≠ (set_context defaultGen (some "DESC") none).prompt_template
    ∧ templateText image_context_template ≠ templateText context_prompt_template
    ∧ (generate_response (set_image_context defaultGen "IMG" (fun _ _ => "DESC"))
        (fun _ => "") (fun _ => .ok .null) "FMT").2
        = .error (.keyError (.unusedArgs ["format_instructions"]))
    ∧ (generate_response (set_image_context defaultGen "IMG" (fun _ _ => "DESC"))
        (fun _ => "") (fun _ => .ok .null) "FMT").1.llm_calls = 0 :=
  ⟨by decide, by decide, rfl, rfl⟩

/-- C7 amended: for every image payload, `set_image_context` calls the image
description service exactly once, stores the returned description verbatim as the
effective context, and installs a context-shaped template with the same placeholders
in the same order as `set_context`'s but a distinct literal (different indentation);
the description appears verbatim in the context slot of the text formatting
substitutes, but `generate_response` then raises `KeyError` on the unused
`format_instructions` partial before the Text Generation Service is ever invoked (its
call counter stays at its prior value). -/
theorem image_mode_one_call_and_verbatim_description (st : GenState) (img : String)
    (svc : String → String → String) (fi : String) :
    (set_image_context st img svc).img_calls = st.img_calls + 1
    ∧ (set_image_context st img svc).llm_calls = st.llm_calls
    ∧ (set_image_context st img svc).context = some (some (svc image_description_prompt img))
    ∧ (set_image_context st img svc).prompt_template = some image_context_template
    ∧ templateVars image_context_template = templateVars context_prompt_template
    ∧ substTemplate
        [("format_instructions", fi),
         ("instructions_placeholder", st.instrucitons),
         ("context_placeholder", svc image_description_prompt img)] image_context_template
        = .ok (imageModePrompt st.instrucitons (svc image_description_prompt img))
    ∧ (∀ (llm : String → String) (parse : String → Except String JValue),
        (generate_response (set_image_context st img svc) llm parse fi).2
          = .error (.keyError (.unusedArgs ["format_instructions"]))
        ∧ (generate_response (set_image_context st img svc) llm parse fi).1.llm_calls
          = st.llm_calls
        ∧ (generate_response (set_image_context st img svc) llm parse fi).1.img_calls
          = st.img_calls + 1) :=
  ⟨rfl, rfl, rfl, rfl, rfl, rfl, fun _ _ => ⟨rfl, rfl, rfl⟩⟩

/-- C10: when generation runs in topic mode with the stored topic equal to `None`,
the instance's topic attribute is permanently overwritten with "Random" whatever the
services return, while the configuration fields, the instruction block and the
installed prompt template are unchanged. -/
theorem generate_overwrites_topic_with_random (st : GenState) (tmpl : List Tok)
    (iv : List String) (llm : String → String) (parse : String → Except String JValue)
    (fi : String) (h1 : st.prompt_template = some tmpl)
    (h2 : st.input_variables = some iv)
    (h3 : iv.contains "context_placeholder" = false) (h4 : st.topic = some none) :
    (generate_response st llm parse fi).1.topic = some (some "Random")
    ∧ (generate_response st llm parse fi).1.story_theme = st.story_theme
    ∧ (generate_response st llm parse fi).1.story_inspiration = st.story_inspiration
    ∧ (generate_response st llm parse fi).1.n_words = st.n_words
    ∧ (generate_response st llm parse fi).1.instrucitons = st.instrucitons
    ∧ (generate_response st llm parse fi).1.prompt_template = st.prompt_template := by
  obtain ⟨th, ins, nw, sp, instr, tp, cx, im, imp, pt, ivv, pr, resp, ic, lc⟩ := st
  simp only [GenState.prompt_template, GenState.input_variables, GenState.topic] at h1 h2 h4
  subst h1; subst h2; subst h4
  simp only [generate_response, h3, Bool.false_eq_true, if_false]
  exact invoke_chain_preserves_fields _ tmpl _ llm parse

/-- Witness for C10 at the concrete default-topic instance with the topic unset. -/
theorem generate_overwrites_topic_with_random_witness :
    (["TOPIC", "instructions_placeholder"].contains "context_placeholder" = false)
    ∧ (generate_response topicUnsetState (fun _ => "") (fun _ => .ok .null) "").1.topic
        = some (some "Random") :=
  ⟨by decide, (generate_overwrites_topic_with_random topicUnsetState default_topic_template
    ["TOPIC", "instructions_placeholder"] (fun _ => "") (fun _ => .ok .null) ""
    rfl rfl (by decide) rfl).1⟩

/-- C8 counterexample: `generate_response` in default topic mode produces no prompt at
all — formatting raises `KeyError` on the unused `format_instructions` partial before
the text service is called — so no prompt using "Random" as the TOPIC value is ever
sent. -/
theorem topic_default_generates_no_prompt :
    (generate_response topicUnsetState (fun _ => "") (fun _ => .ok .null) "FMT").2
      = .error (.keyError (.unusedArgs ["format_instructions"]))
    ∧ (generate_response topicUnsetState (fun _ => "") (fun _ => .ok .null) "FMT").1.llm_calls
      = 0 :=
  ⟨rfl, rfl⟩

/-- C8 amended: after `set_context()` with no topic the stored topic attribute is
still Python `None`; the sentinel "Random" is substituted only inside
`generate_response` (which persistently overwrites the attribute and passes
TOPIC = "Random" to formatting, whose substitution pass renders the default topic
template with "Random" in the TOPIC slot) — but generation itself then raises
`KeyError` on the unused `format_instructions` partial, so no prompt is sent. -/
theorem topic_default_substituted_at_generation :
    topicUnsetState.topic = some none
    ∧ topicUnsetState.prompt_template = some default_topic_template
    ∧ (∀ (fi : String) (llm : String → String) (parse : String → Except String JValue),
        (generate_response topicUnsetState llm parse fi).1.topic = some (some "Random"))
    ∧ (∀ fi : String, substTemplate
        [("format_instructions", fi),
         ("instructions_placeholder", defaultGen.instrucitons),
         ("TOPIC", "Random")] default_topic_template
        = .ok (topicDefaultPrompt "Random" defaultGen.instrucitons))
    ∧ (∀ (fi : String) (llm : String → String) (parse : String → Except String JValue),
        (generate_response topicUnsetState llm parse fi).2
          = .error (.keyError (.unusedArgs ["format_instructions"]))) :=
  ⟨rfl, rfl, fun _ _ _ => rfl, fun _ => rfl, fun _ _ _ => rfl⟩

/-- C3 (code bug): the parser's format directive never reaches any outbound prompt.
Neither template defined in the source carries a `format_instructions` placeholder, so
`StrictFormatter` raises `KeyError` on the partial variable of line 163 for every
directive value: `generate_response` fails at format time with the text service never
invoked, no prompt is sent at all, and the text the substitution pass computes before
that check aborts does not contain the directive either. -/
theorem format_directive_never_in_prompt :
    (∀ (fi : String) (llm : String → String) (parse : String → Except String JValue),
        (generate_response ctxState llm parse fi).2
          = .error (.keyError (.unusedArgs ["format_instructions"]))
        ∧ (generate_response ctxState llm parse fi).1.llm_calls = 0)
    ∧ (∀ (fi : String) (llm : String → String) (parse : String → Except String JValue),
        (generate_response topicUnsetState llm parse fi).2
          = .error (.keyError (.unusedArgs ["format_instructions"]))
        ∧ (generate_response topicUnsetState llm parse fi).1.llm_calls = 0)
    ∧ templateVars context_prompt_template
        = ["instructions_placeholder", "context_placeholder"]
    ∧ templateVars default_topic_template = ["TOPIC", "instructions_placeholder"]
    ∧ (∀ fi : String, substTemplate
        [("format_instructions", fi),
         ("instructions_placeholder", defaultGen.instrucitons),
         ("context_placeholder", "A misty forest")] context_prompt_template
        = .ok (contextModePrompt defaultGen.instrucitons "A misty forest"))
    ∧ strContains (contextModePrompt defaultGen.instrucitons "A misty forest")
        format_directive = false
    ∧ strContains (topicDefaultPrompt "Random" defaultGen.instrucitons)
        format_directive = false :=
  ⟨fun _ _ _ => ⟨rfl, rfl⟩, fun _ _ _ => ⟨rfl, rfl⟩, rfl, rfl, fun _ => rfl,
    by decide, by decide⟩

/-- C6 counterexample: after `Topic("Dragons")` then `Context("A misty forest")`, the
subsequent generation produces no prompt at all — formatting raises `KeyError` on the
unused `format_instructions` partial before the text service is called — so there is
no generated prompt whose content could be inspected. -/
theorem topic_then_context_generates_no_prompt :
    (generate_response topicThenContextState (fun _ => "") (fun _ => .ok .null) "FMT").2
      = .error (.keyError (.unusedArgs ["format_instructions"]))
    ∧ (generate_response topicThenContextState
        (fun _ => "") (fun _ => .ok .null) "FMT").1.llm_calls = 0 :=
  ⟨rfl, rfl⟩

/-- C6 amended: selecting `Topic("Dragons")` and then `Context("A misty forest")` on
the same instance discards the topic state entirely — the topic attribute is reset to
`None` and the context-shaped template is installed; generation then fails at format
time with `KeyError` on the unused `format_instructions` partial before any prompt is
sent, and the text the substitution pass computes from the context template before
that check aborts contains neither the topic value "Dragons" nor a TOPIC
placeholder. -/
theorem topic_then_context_discards_topic :
    topicThenContextState.prompt_template = some context_prompt_template
    ∧ topicThenContextState.input_variables
        = some ["instructions_placeholder", "context_placeholder"]
    ∧ topicThenContextState.topic = some none
    ∧ (∀ (fi : String) (llm : String → String) (parse : String → Except String JValue),
        (generate_response topicThenContextState llm parse fi).2
          = .error (.keyError (.unusedArgs ["format_instructions"])))
    ∧ (∀ fi : String, substTemplate
        [("format_instructions", fi),
         ("instructions_placeholder", defaultGen.instrucitons),
         ("context_placeholder", "A misty forest")] context_prompt_template
        = .ok (contextModePrompt defaultGen.instrucitons "A misty forest"))
    ∧ strContains (contextModePrompt defaultGen.instrucitons "A misty forest")
        "Dragons" = false
    ∧ strContains (contextModePrompt defaultGen.instrucitons "A misty forest")
        "\x7bTOPIC\x7d" = false :=
  ⟨rfl, rfl, rfl, fun _ _ _ => rfl, fun _ => rfl, by decide, by decide⟩

/-- C9 counterexample: with both a topic and a context supplied, generation produces
no prompt — formatting raises `KeyError` on the unused `format_instructions` partial
(with the spec-modelled two-placeholder topic file template) before the text service
is called — so no generated prompt exists to carry the topic value. -/
theorem both_args_generates_no_prompt :
    (generate_response bothArgsState (fun _ => "") (fun _ => .ok .null) "FMT").2
      = .error (.keyError (.unusedArgs ["format_instructions"]))
    ∧ (generate_response bothArgsState (fun _ => "") (fun _ => .ok .null) "FMT").1.llm_calls
      = 0 :=
  ⟨rfl, rfl⟩

/-- C9 amended: when `set_context` receives both a non-empty topic and a non-empty
context, the topic branch wins: the topic-shaped template is installed and generation
passes the topic value (never the context) to formatting — the substitution pass
renders "Dragons" into the topic slot and the supplied context string appears nowhere
in that text — but generation itself then raises `KeyError` on the unused
`format_instructions` partial, so no prompt is sent to the service. -/
theorem topic_takes_precedence_over_context :
    bothArgsState.prompt_template = some prompt_w_topic_template
    ∧ bothArgsState.input_variables = some ["TOPIC", "instructions_placeholder"]
    ∧ bothArgsState.context = some (some "A misty forest")
    ∧ (∀ fi : String, substTemplate
        [("format_instructions", fi),
         ("instructions_placeholder", defaultGen.instrucitons),
         ("TOPIC", "Dragons")] prompt_w_topic_template
        = .ok (topicFilePrompt "Dragons" defaultGen.instrucitons))
    ∧ strContains (topicFilePrompt "Dragons" defaultGen.instrucitons) "Dragons" = true
    ∧ strContains (topicFilePrompt "Dragons" defaultGen.instrucitons)
        "A misty forest" = false
    ∧ (∀ (fi : String) (llm : String → String) (parse : String → Except String JValue),
        (generate_response bothArgsState llm parse fi).2
          = .error (.keyError (.unusedArgs ["format_instructions"]))) :=
  ⟨rfl, rfl, rfl, fun _ => rfl,
    strContains_append_middle ptw_lit0 "Dragons"
      (ptw_lit1 ++ (defaultGen.instrucitons ++ "")), by decide, fun _ _ _ => rfl⟩

end StoryTeller
